import Mathlib

/-!
Shallow embedding of the smart-home reactive core (EventBus, data pipeline,
per-device state machine with command undo/redo, automation rule engine),
translated from the C++ sources, together with theorems settling the
specification claims about it.

Numeric sensor values (`double` in the source) are modelled as rationals:
every computation the claims exercise is exact in binary floating point
(small integers, sums and divisions with exact results), so ℚ is a faithful
model on these inputs.
-/

namespace SmartHome

/-! ## Device state machine (src/src/devices/DeviceState.cpp)

`DeviceStateType` mirrors `enum class DeviceStateType`.  `handleEvent`
collects the four `handleEvent` member functions of `IdleState`,
`ActiveState`, `ErrorState` and `MaintenanceState`: each compares the event
string against the accepted events of the current state and transitions; an
unrecognised event is logged and leaves the state unchanged. -/

inductive DeviceStateType where
  | Idle
  | Active
  | Error
  | Maintenance
  deriving DecidableEq, Repr

/-- One step of the per-device state machine: `IdleState::handleEvent`,
`ActiveState::handleEvent`, `ErrorState::handleEvent`,
`MaintenanceState::handleEvent` from DeviceState.cpp. -/
def handleEvent : DeviceStateType → String → DeviceStateType
  | .Idle, e =>
      if e = "activate" then .Active
      else if e = "maintenance" then .Maintenance
      else .Idle
  | .Active, e =>
      if e = "deactivate" then .Idle
      else if e = "error" then .Error
      else if e = "maintenance" then .Maintenance
      else .Active
  | .Error, e =>
      if e = "reset" then .Idle
      else if e = "maintenance" then .Maintenance
      else .Error
  | .Maintenance, e =>
      if e = "done" then .Idle
      else .Maintenance

/-! ## Sensor readings and the data pipeline

`SensorType` mirrors `enum class SensorType` (SensorTypes.h) and
`SensorReading` mirrors the struct in SensorReading.h, with `double` values
modelled as ℚ.  Pipeline handlers (`DataValidator`, `DataFilter`,
`DataTransformer`) are chain-of-responsibility stages; the chain forward of
`BaseDataHandler::handle` ("call `next_->handle` if a next handler is set,
else return the reading") is made explicit as an optional continuation
argument `next`.  The filter's sliding window (`std::deque<double> window_`,
front = oldest) is threaded as an explicit `List ℚ` state. -/

inductive SensorType where
  | Temperature
  | Humidity
  | Motion
  deriving DecidableEq, Repr

structure SensorReading where
  sensorName : String
  type : SensorType
  rawValue : ℚ
  processedValue : ℚ
  timestampMs : Nat
  isValid : Bool := true
  unit : Option String := none
  deriving DecidableEq, Repr

/-- The range check of `DataValidator::handle` (DataValidator.cpp lines
18–33): an out-of-range `processedValue` clears `isValid`, otherwise the
reading is left untouched. -/
def validatorCheck (minValid maxValid : ℚ) (r : SensorReading) :
    SensorReading :=
  if r.processedValue < minValid ∨ r.processedValue > maxValid then
    { r with isValid := false }
  else r

/-- `DataValidator::handle`: an already-invalid reading is returned at once
without forwarding; otherwise the range check runs and the result is
forwarded to the next handler via `BaseDataHandler::handle`. -/
def validatorHandle (minValid maxValid : ℚ)
    (next : Option (SensorReading → SensorReading)) (r : SensorReading) :
    SensorReading :=
  if !r.isValid then r
  else
    let r1 := validatorCheck minValid maxValid r
    match next with
    | some f => f r1
    | none => r1

/-- `DataFilter::movingAverage`: `std::accumulate(window, newVal)` divided by
`window.size() + 1`. -/
def movingAverage (newVal : ℚ) (window : List ℚ) : ℚ :=
  (window.sum + newVal) / (window.length + 1)

/-- `DataFilter::exponentialMA` with α = 0.3 (exact as 3/10 in ℚ): if the
window is empty return `newVal`, else blend with `window.back()`. -/
def exponentialMA (newVal : ℚ) (window : List ℚ) : ℚ :=
  match window.getLast? with
  | none => newVal
  | some prevEma => 3/10 * newVal + (1 - 3/10) * prevEma

/-- `DataFilter::thresholdFilter` with maxDelta = 5.0: if the window is empty
return `newVal`; if `|newVal − window.back()| > 5` return `window.back()`
(reject the spike), else return `newVal`. -/
def thresholdFilter (newVal : ℚ) (window : List ℚ) : ℚ :=
  match window.getLast? with
  | none => newVal
  | some lastVal => if |newVal - lastVal| > 5 then lastVal else newVal

/-- `DataFilter::handle` (DataFilter.cpp lines 45–66): invalid readings are
forwarded untouched and do not affect the window; for a valid reading the
strategy runs over the current window, the raw pre-filter value is pushed to
the back, the window is trimmed from the front when it exceeds
`windowSize`, and the updated reading is forwarded. -/
def filterHandle (strategy : ℚ → List ℚ → ℚ) (windowSize : Nat)
    (next : Option (SensorReading → SensorReading)) (r : SensorReading)
    (window : List ℚ) : SensorReading × List ℚ :=
  if !r.isValid then
    (match next with | some f => f r | none => r, window)
  else
    let original := r.processedValue
    let r1 := { r with processedValue := strategy original window }
    let w1 := window ++ [original]
    let w2 := if w1.length > windowSize then w1.tail else w1
    (match next with | some f => f r1 | none => r1, w2)

/-- `DataTransformer::handle`: applies the registered transform for the
reading's sensor type when the reading is valid (no-op when no mapping is
registered), then forwards; invalid readings are forwarded untouched. -/
def transformerHandle (transforms : SensorType → Option (ℚ → ℚ))
    (next : Option (SensorReading → SensorReading)) (r : SensorReading) :
    SensorReading :=
  let r1 :=
    if !r.isValid then r
    else
      match transforms r.type with
      | some f => { r with processedValue := f r.processedValue }
      | none => r
  match next with
  | some f => f r1
  | none => r1

/-- The three-stage chain Validator → Filter → Transformer built by
`DataPipeline::addHandler` linkage, with the filter's window state threaded
explicitly.  An already-invalid input is returned by the validator without
reaching the filter or transformer (chain terminates, window untouched). -/
def pipeline3 (minValid maxValid : ℚ) (strategy : ℚ → List ℚ → ℚ)
    (windowSize : Nat) (transforms : SensorType → Option (ℚ → ℚ))
    (r : SensorReading) (window : List ℚ) : SensorReading × List ℚ :=
  if !r.isValid then (r, window)
  else
    let r1 := validatorCheck minValid maxValid r
    let p := filterHandle strategy windowSize none r1 window
    (transformerHandle transforms none p.1, p.2)

/-- `DataPipeline::process` applied to each reading of a list in order,
threading the filter window through. -/
def processAll (minValid maxValid : ℚ) (strategy : ℚ → List ℚ → ℚ)
    (windowSize : Nat) (transforms : SensorType → Option (ℚ → ℚ)) :
    List SensorReading → List ℚ → List SensorReading × List ℚ
  | [], w => ([], w)
  | r :: rs, w =>
      let p := pipeline3 minValid maxValid strategy windowSize transforms r w
      let q := processAll minValid maxValid strategy windowSize transforms rs p.2
      (p.1 :: q.1, q.2)

/-- A fresh valid reading whose raw and processed values both equal `v`. -/
def mkReading (v : ℚ) : SensorReading :=
  { sensorName := "temp_sensor", type := .Temperature, rawValue := v,
    processedValue := v, timestampMs := 0, isValid := true, unit := none }

/-! ## Device controller and command invoker
(src/src/devices/DeviceController.cpp, DeviceCommand.cpp)

A `LambdaCommand` built by the `DeviceController` operations captures a
device context and a pair of event strings: the forward event replayed by
`execute` and the fixed inverse event replayed by `undo`; `Cmd` records
exactly that.  `Controller` combines the controller's device map
(`devices_`, keyed by device id, each device holding its current state) with
the invoker's `history_` (a vector used as a stack at the back; modelled
with the most recent command at the head) and `redoStack_` (top at the
head).  Operations that go through `DeviceController::getContext` throw
`std::runtime_error` on an unknown id, modelled with `Except`. -/

structure Cmd where
  deviceId : String
  fwdEvent : String
  invEvent : String
  deriving DecidableEq, Repr

structure Controller where
  devices : List (String × DeviceStateType)
  history : List Cmd
  redoStack : List Cmd
  deriving DecidableEq, Repr

def lookupDevice : List (String × DeviceStateType) → String →
    Option DeviceStateType
  | [], _ => none
  | (i, s) :: rest, did => if i = did then some s else lookupDevice rest did

/-- `DeviceContext::handleEvent` on the device `did` inside the device map:
the device's current state steps by `handleEvent`; other devices are
untouched (and an id with no entry changes nothing). -/
def applyEvent (devs : List (String × DeviceStateType)) (did ev : String) :
    List (String × DeviceStateType) :=
  devs.map (fun p => if p.1 = did then (p.1, handleEvent p.2 ev) else p)

/-- `CommandInvoker::executeCommand`: run the forward event, append to
history, clear the redo stack. -/
def executeCommand (c : Controller) (cmd : Cmd) : Controller :=
  { devices := applyEvent c.devices cmd.deviceId cmd.fwdEvent,
    history := cmd :: c.history,
    redoStack := [] }

/-- `CommandInvoker::undoLast`: warning-logged no-op on empty history, else
pop the most recent command, replay its fixed inverse event, push it onto
the redo stack. -/
def undoLast (c : Controller) : Controller :=
  match c.history with
  | [] => c
  | cmd :: rest =>
      { devices := applyEvent c.devices cmd.deviceId cmd.invEvent,
        history := rest,
        redoStack := cmd :: c.redoStack }

/-- `CommandInvoker::redoLast`: warning-logged no-op on empty redo stack,
else pop the top command, replay its forward event, push it back onto
history. -/
def redoLast (c : Controller) : Controller :=
  match c.redoStack with
  | [] => c
  | cmd :: rest =>
      { devices := applyEvent c.devices cmd.deviceId cmd.fwdEvent,
        history := cmd :: c.history,
        redoStack := rest }

/-- `DeviceController::registerDevice`: warning-logged no-op when the id is
already present, else insert a fresh context whose initial state is Idle. -/
def registerDevice (c : Controller) (did : String) : Controller :=
  if (lookupDevice c.devices did).isSome then c
  else { c with devices := c.devices ++ [(did, .Idle)] }

/-- `DeviceController::getContext`: hard failure
(`throw std::runtime_error`) on an unknown id, else the context — modelled
by its current state. -/
def getContext (c : Controller) (did : String) :
    Except String DeviceStateType :=
  match lookupDevice c.devices did with
  | none => .error ("Device not found: " ++ did)
  | some s => .ok s

/-- `DeviceController::getDeviceState`: an unknown id silently yields
`DeviceStateType::Idle`; a known id yields its current state.  Note: unlike
`getContext` this never fails. -/
def getDeviceState (c : Controller) (did : String) : DeviceStateType :=
  match lookupDevice c.devices did with
  | none => .Idle
  | some s => s

/-- `DeviceController::activateDevice`: `getContext` (hard failure on an
unknown id), then execute a command replaying "activate" with fixed inverse
"deactivate". -/
def activateDevice (c : Controller) (did : String) :
    Except String Controller :=
  if (lookupDevice c.devices did).isSome then
    .ok (executeCommand c ⟨did, "activate", "deactivate"⟩)
  else .error ("Device not found: " ++ did)

/-- `DeviceController::deactivateDevice`: forward "deactivate", fixed
inverse "activate". -/
def deactivateDevice (c : Controller) (did : String) :
    Except String Controller :=
  if (lookupDevice c.devices did).isSome then
    .ok (executeCommand c ⟨did, "deactivate", "activate"⟩)
  else .error ("Device not found: " ++ did)

/-- `DeviceController::triggerError`: forward "error", fixed inverse
"reset". -/
def triggerError (c : Controller) (did : String) :
    Except String Controller :=
  if (lookupDevice c.devices did).isSome then
    .ok (executeCommand c ⟨did, "error", "reset"⟩)
  else .error ("Device not found: " ++ did)

/-- `DeviceController::resetDevice`: forward "reset", fixed inverse
"error". -/
def resetDevice (c : Controller) (did : String) :
    Except String Controller :=
  if (lookupDevice c.devices did).isSome then
    .ok (executeCommand c ⟨did, "reset", "error"⟩)
  else .error ("Device not found: " ++ did)

/-- `DeviceController::startMaintenance`: forward "maintenance", fixed
inverse "done". -/
def startMaintenance (c : Controller) (did : String) :
    Except String Controller :=
  if (lookupDevice c.devices did).isSome then
    .ok (executeCommand c ⟨did, "maintenance", "done"⟩)
  else .error ("Device not found: " ++ did)

/-- `DeviceController::completeMaintenance`: forward "done", fixed inverse
"maintenance". -/
def completeMaintenance (c : Controller) (did : String) :
    Except String Controller :=
  if (lookupDevice c.devices did).isSome then
    .ok (executeCommand c ⟨did, "done", "maintenance"⟩)
  else .error ("Device not found: " ++ did)

/-- Executing a list of commands in order through the invoker. -/
def execAll (c : Controller) : List Cmd → Controller
  | [] => c
  | cmd :: rest => execAll (executeCommand c cmd) rest

/-- The device map after replaying the forward events of a command list. -/
def applyCmds (devs : List (String × DeviceStateType)) :
    List Cmd → List (String × DeviceStateType)
  | [] => devs
  | cmd :: rest => applyCmds (applyEvent devs cmd.deviceId cmd.fwdEvent) rest

/-- `undoIter n` calls `undoLast` n times. -/
def undoIter : Nat → Controller → Controller
  | 0, c => c
  | n + 1, c => undoLast (undoIter n c)

/-- `redoIter n` calls `redoLast` n times. -/
def redoIter : Nat → Controller → Controller
  | 0, c => c
  | n + 1, c => redoIter n (redoLast c)

/-- A command run is clean from a device map when, step by step, each
command's fixed inverse event applied after its forward event restores the
device map that held before the command (the forward transition is accepted
and the paired event is its exact inverse there). -/
def cleanRunB : List (String × DeviceStateType) → List Cmd → Bool
  | _, [] => true
  | devs, cmd :: rest =>
      (applyEvent (applyEvent devs cmd.deviceId cmd.fwdEvent) cmd.deviceId
          cmd.invEvent == devs) &&
      cleanRunB (applyEvent devs cmd.deviceId cmd.fwdEvent) rest

/-! ## Automation service (src/src/services/AutomationService.cpp)

`Rule`, `SensorEvent` and `AlertEvent` mirror the structs in
AutomationService.h and EventBus.h.  `evaluateRules` is
`AutomationService::evaluateRules`: the event's sensor-type name is resolved
back to the enum (unrecognised names drop the event), then every rule is
evaluated in registration order; `executeAction` is
`AutomationService::executeAction`.  Exceptions thrown by the device
controller propagate, modelled in `Except`; the alert events published on
the bus are collected in a list. -/

structure Rule where
  name : String
  sensorType : SensorType
  threshold : ℚ
  triggerAbove : Bool
  targetDeviceId : String
  action : String
  alertSeverity : Int
  alertMessage : String
  deriving DecidableEq, Repr

structure SensorEvent where
  sensorName : String
  sensorType : String
  value : ℚ
  timestampMs : Nat
  deriving DecidableEq, Repr

structure AlertEvent where
  source : String
  message : String
  severity : Int
  deriving DecidableEq, Repr

/-- The string-to-enum resolution at the top of
`AutomationService::evaluateRules`; an unrecognised name makes the whole
evaluation return with nothing done. -/
def parseSensorType (s : String) : Option SensorType :=
  if s = "Temperature" then some .Temperature
  else if s = "Humidity" then some .Humidity
  else if s = "Motion" then some .Motion
  else none

/-- `AutomationService::executeAction`: dispatch the rule's action to the
device controller (actions other than activate/deactivate/reset fall
through the if-chain and run no command), then publish one `AlertEvent`
when `alertSeverity > 0`. -/
def executeAction (c : Controller) (rule : Rule) :
    Except String (Controller × List AlertEvent) := do
  let c' ←
    if rule.action = "activate" then
      activateDevice c rule.targetDeviceId
    else if rule.action = "deactivate" then
      deactivateDevice c rule.targetDeviceId
    else if rule.action = "reset" then
      resetDevice c rule.targetDeviceId
    else pure c
  let alerts :=
    if rule.alertSeverity > 0 then
      [AlertEvent.mk rule.name (rule.alertMessage ++ " (value triggered rule)")
        rule.alertSeverity]
    else []
  pure (c', alerts)

/-- The body of the rule loop in `AutomationService::evaluateRules` for one
rule: skip on sensor-type mismatch; evaluate the threshold condition; then
the guard — dispatch only when action is "activate" and the target is Idle,
or action is "deactivate" and the target is Active. -/
def applyRule (t : SensorType) (ev : SensorEvent)
    (acc : Controller × List AlertEvent) (rule : Rule) :
    Except String (Controller × List AlertEvent) :=
  if rule.sensorType ≠ t then .ok acc
  else
    let triggered :=
      if rule.triggerAbove then ev.value > rule.threshold
      else ev.value < rule.threshold
    if ¬triggered then .ok acc
    else
      let currentState := getDeviceState acc.1 rule.targetDeviceId
      if rule.action = "activate" ∧ currentState = .Idle then
        (executeAction acc.1 rule).map (fun p => (p.1, acc.2 ++ p.2))
      else if rule.action = "deactivate" ∧ currentState = .Active then
        (executeAction acc.1 rule).map (fun p => (p.1, acc.2 ++ p.2))
      else .ok acc

/-- The rule loop itself, in registration order. -/
def evalRulesList (t : SensorType) (ev : SensorEvent) :
    Controller × List AlertEvent → List Rule →
    Except String (Controller × List AlertEvent)
  | acc, [] => .ok acc
  | acc, rule :: rest => do
      let acc' ← applyRule t ev acc rule
      evalRulesList t ev acc' rest

/-- `AutomationService::evaluateRules` over the full rule list, returning
the controller after all dispatched commands together with the alert events
published during evaluation. -/
def evaluateRules (c : Controller) (rules : List Rule) (ev : SensorEvent) :
    Except String (Controller × List AlertEvent) :=
  match parseSensorType ev.sensorType with
  | none => .ok (c, [])
  | some t => evalRulesList t ev (c, []) rules

/-! ## Event bus (src/include/core/EventBus.h, src/src/core/EventBus.cpp)

The registry `subscribers_` maps a topic to its subscriber vector in
subscription order; only the subscription ids matter for the claims, so a
subscriber is modelled by its id.  `subscribe` hands out `nextId_++` and
appends; `publish` snapshots the topic's vector and invokes every callback
in order — modelled by returning the snapshot of ids invoked (the registry
is never modified by `publish`); `unsubscribe` erase/remove_if-s matching
ids after an early return when the topic has no entry. -/

structure EventBusModel where
  subscribers : List (String × List Nat)
  nextId : Nat
  deriving DecidableEq, Repr

def findTopic : List (String × List Nat) → String → Option (List Nat)
  | [], _ => none
  | (t, l) :: rest, topic =>
      if t = topic then some l else findTopic rest topic

/-- `subscribers_[eventName].push_back({id, wrapper})`: append to the
topic's vector, creating the entry when absent. -/
def addSub : List (String × List Nat) → String → Nat →
    List (String × List Nat)
  | [], topic, i => [(topic, [i])]
  | (t, l) :: rest, topic, i =>
      if t = topic then (t, l ++ [i]) :: rest
      else (t, l) :: addSub rest topic i

/-- `EventBus::subscribe`: take `nextId_++` as the subscription id, append
the subscriber, return the id. -/
def subscribe (b : EventBusModel) (topic : String) : EventBusModel × Nat :=
  (⟨addSub b.subscribers topic b.nextId, b.nextId + 1⟩, b.nextId)

/-- The erase/remove_if of `EventBus::unsubscribe`: drop every subscriber
of the topic whose id matches. -/
def removeSub : List (String × List Nat) → String → Nat →
    List (String × List Nat)
  | [], _, _ => []
  | (t, l) :: rest, topic, i =>
      if t = topic then (t, l.filter (fun j => j ≠ i)) :: rest
      else (t, l) :: removeSub rest topic i

/-- `EventBus::unsubscribe`: early return when the topic has no entry, else
remove matching ids. -/
def unsubscribe (b : EventBusModel) (topic : String) (i : Nat) :
    EventBusModel :=
  match findTopic b.subscribers topic with
  | none => b
  | some _ => ⟨removeSub b.subscribers topic i, b.nextId⟩

/-- `EventBus::publish`: the fan-out set — the snapshot of subscriber ids
whose callbacks are invoked, in subscription order.  A topic with no entry
returns before invoking anything; the registry itself is never changed. -/
def publish (b : EventBusModel) (topic : String) : List Nat :=
  match findTopic b.subscribers topic with
  | none => []
  | some subs => subs

/-- `EventBus::subscriberCount`. -/
def subscriberCount (b : EventBusModel) (topic : String) : Nat :=
  match findTopic b.subscribers topic with
  | none => 0
  | some l => l.length

/-- N fresh subscriptions to one topic, starting from a given bus. -/
def subscribeN (b : EventBusModel) (topic : String) : Nat → EventBusModel
  | 0 => b
  | n + 1 => (subscribe (subscribeN b topic n) topic).1

end SmartHome

namespace SmartHome

/-- Claim C2: the per-device state machine realizes exactly the transition
table (Idle: activate→Active, maintenance→Maintenance; Active:
deactivate→Idle, error→Error, maintenance→Maintenance; Error: reset→Idle,
maintenance→Maintenance; Maintenance: done→Idle); every event not listed for
a state leaves the state unchanged; and the sequence activate, error, reset
from Idle passes through Active and Error back to Idle. -/
theorem state_machine_transition_table :
    (handleEvent .Idle "activate" = .Active ∧
     handleEvent .Idle "maintenance" = .Maintenance ∧
     handleEvent .Active "deactivate" = .Idle ∧
     handleEvent .Active "error" = .Error ∧
     handleEvent .Active "maintenance" = .Maintenance ∧
     handleEvent .Error "reset" = .Idle ∧
     handleEvent .Error "maintenance" = .Maintenance ∧
     handleEvent .Maintenance "done" = .Idle) ∧
    (∀ e : String,
      (e ≠ "activate" → e ≠ "maintenance" → handleEvent .Idle e = .Idle) ∧
      (e ≠ "deactivate" → e ≠ "error" → e ≠ "maintenance" →
        handleEvent .Active e = .Active) ∧
      (e ≠ "reset" → e ≠ "maintenance" → handleEvent .Error e = .Error) ∧
      (e ≠ "done" → handleEvent .Maintenance e = .Maintenance)) ∧
    (handleEvent .Idle "activate" = .Active ∧
     handleEvent (handleEvent .Idle "activate") "error" = .Error ∧
     handleEvent (handleEvent (handleEvent .Idle "activate") "error") "reset"
       = .Idle) := by
  refine ⟨by decide, fun e => ?_, by decide⟩
  refine ⟨fun h1 h2 => ?_, fun h1 h2 h3 => ?_, fun h1 h2 => ?_, fun h1 => ?_⟩ <;>
    simp [handleEvent, h1, *]

/-- Claim C1: with a Validator(0,100), a MovingAverage filter with
windowSize 3 and an initially empty window, and an identity Transformer,
processing readings with raw/processed values 50, 52, 54, 56 in order yields
the processedValue sequence 50, 51, 52, 53 (each output is
(sum of current window + new value)/(window length + 1), the pre-filter
value is pushed after each computation, and the window ends trimmed to the
3 elements 52, 54, 56). -/
theorem pipeline_moving_average_scenario :
    (processAll 0 100 movingAverage 3 (fun _ => some (fun x => x))
        [mkReading 50, mkReading 52, mkReading 54, mkReading 56] []).1.map
        (fun r => r.processedValue) = [50, 51, 52, 53] ∧
    (processAll 0 100 movingAverage 3 (fun _ => some (fun x => x))
        [mkReading 50, mkReading 52, mkReading 54, mkReading 56] []).2
      = [52, 54, 56] ∧
    (processAll 0 100 movingAverage 3 (fun _ => some (fun x => x))
        [mkReading 50, mkReading 52, mkReading 54, mkReading 56] []).1.map
        (fun r => r.isValid) = [true, true, true, true] := by
  refine ⟨?_, ?_, ?_⟩ <;>
    norm_num [processAll, pipeline3, validatorCheck, filterHandle,
      transformerHandle, movingAverage, mkReading]

/-- Claim C6: an already-invalid reading is returned by the Validator
immediately and not forwarded (for every possible next handler `f` the
result is the unmodified input); a valid in-range reading is forwarded
unchanged with `isValid` still true; a valid out-of-range reading has
`isValid` cleared but is still forwarded to the next handler. -/
theorem validator_chain_spec (minV maxV : ℚ)
    (f : SensorReading → SensorReading) (r : SensorReading) :
    (r.isValid = false → validatorHandle minV maxV (some f) r = r) ∧
    (r.isValid = true → minV ≤ r.processedValue →
      r.processedValue ≤ maxV →
      validatorHandle minV maxV (some f) r = f r) ∧
    (r.isValid = true →
      (r.processedValue < minV ∨ r.processedValue > maxV) →
      validatorHandle minV maxV (some f) r = f { r with isValid := false }) := by
  refine ⟨fun h => ?_, fun hv hlo hhi => ?_, fun hv hout => ?_⟩
  · simp [validatorHandle, h]
  · have : ¬(r.processedValue < minV ∨ r.processedValue > maxV) := by
      push_neg
      exact ⟨hlo, hhi⟩
    simp [validatorHandle, validatorCheck, hv, this]
  · simp [validatorHandle, validatorCheck, hv, hout]

/-- Witness for C6: at Validator(0,100), with a next handler that adds 1 to
the processed value: an invalid reading (value 50, isValid false) comes back
untouched, a valid in-range reading is forwarded unchanged into the next
handler, and a valid out-of-range reading (value 150) is forwarded with
isValid cleared. -/
theorem validator_chain_spec_witness :
    validatorHandle 0 100
        (some (fun x => { x with processedValue := x.processedValue + 1 }))
        { mkReading 50 with isValid := false }
      = { mkReading 50 with isValid := false } ∧
    validatorHandle 0 100
        (some (fun x => { x with processedValue := x.processedValue + 1 }))
        (mkReading 50)
      = { mkReading 50 with processedValue := 51 } ∧
    validatorHandle 0 100
        (some (fun x => { x with processedValue := x.processedValue + 1 }))
        (mkReading 150)
      = { mkReading 150 with processedValue := 151, isValid := false } :=
  ⟨(validator_chain_spec 0 100
      (fun x => { x with processedValue := x.processedValue + 1 })
      { mkReading 50 with isValid := false }).1 (by decide),
   by
    have h := (validator_chain_spec 0 100
      (fun x => { x with processedValue := x.processedValue + 1 })
      (mkReading 50)).2.1 (by decide) (by decide) (by decide)
    have h51 : (50 : ℚ) + 1 = 51 := by norm_num
    simpa [mkReading, h51] using h,
   by
    have h := (validator_chain_spec 0 100
      (fun x => { x with processedValue := x.processedValue + 1 })
      (mkReading 150)).2.2 (by decide) (by decide)
    have h151 : (150 : ℚ) + 1 = 151 := by norm_num
    simpa [mkReading, h151] using h⟩

/-- Claim C7: the Threshold filter strategy (maxDelta 5.0) returns the new
value when the window is empty; when the window is nonempty with last value
`lastVal` it returns `lastVal` when `|newVal − lastVal| > 5` and `newVal`
otherwise; and on a valid reading the filter stage's output processedValue
is exactly the strategy's result over the current window. -/
theorem threshold_filter_spec :
    (∀ newVal : ℚ, thresholdFilter newVal [] = newVal) ∧
    (∀ (newVal lastVal : ℚ) (w : List ℚ), w.getLast? = some lastVal →
      (|newVal - lastVal| > 5 → thresholdFilter newVal w = lastVal) ∧
      (¬|newVal - lastVal| > 5 → thresholdFilter newVal w = newVal)) ∧
    (∀ (r : SensorReading) (w : List ℚ) (wsize : Nat), r.isValid = true →
      (filterHandle thresholdFilter wsize none r w).1.processedValue
        = thresholdFilter r.processedValue w) := by
  refine ⟨fun newVal => rfl, fun newVal lastVal w hw => ?_, fun r w ws hr => ?_⟩
  · constructor
    · intro hgt
      simp [thresholdFilter, hw, hgt]
    · intro hle
      simp [thresholdFilter, hw, hle]
  · simp [filterHandle, hr]

/-- Witness for C7: with window [10]: input 20 is a spike (delta 10 > 5) and
the output is 10; input 14 (delta 4 ≤ 5) passes through as 14; with the
empty window input 20 passes through; and the filter stage on a valid
reading of value 20 over window [10] outputs processedValue 10. -/
theorem threshold_filter_spec_witness :
    thresholdFilter 20 [10] = 10 ∧
    thresholdFilter 14 [10] = 14 ∧
    thresholdFilter 20 [] = 20 ∧
    (filterHandle thresholdFilter 3 none (mkReading 20) [10]).1.processedValue
      = 10 :=
  ⟨(threshold_filter_spec.2.1 20 10 [10] (by decide)).1 (by norm_num),
   (threshold_filter_spec.2.1 14 10 [10] (by decide)).2 (by norm_num),
   threshold_filter_spec.1 20,
   by
    have h := threshold_filter_spec.2.2 (mkReading 20) [10] 3 (by decide)
    rw [h]
    exact (threshold_filter_spec.2.1 20 10 [10] (by decide)).1 (by norm_num)⟩

/-- Executing commands from `⟨d, h, r⟩` leaves the device map after all
forward events, the commands most-recent-first in front of the old history,
and — as soon as at least one command ran — an empty redo stack. -/
theorem execAll_spec : ∀ (cmds : List Cmd)
    (d : List (String × DeviceStateType)) (h r : List Cmd),
    execAll ⟨d, h, r⟩ cmds
      = ⟨applyCmds d cmds, cmds.reverse ++ h, if cmds.isEmpty then r else []⟩
  | [], d, h, r => by simp [execAll, applyCmds]
  | cmd :: rest, d, h, r => by
      show execAll ⟨applyEvent d cmd.deviceId cmd.fwdEvent, cmd :: h, []⟩ rest
        = _
      rw [execAll_spec rest]
      simp [applyCmds, List.append_assoc]

/-- Undoing a clean run command by command: `cmds.length` undos starting
from the executed configuration restore the starting device map and
history, and stack the commands onto the redo stack in execution order
(first executed on top after all undos, hence redone first). -/
theorem undoIter_spec : ∀ (cmds : List Cmd)
    (d : List (String × DeviceStateType)) (h r : List Cmd),
    cleanRunB d cmds = true →
    undoIter cmds.length ⟨applyCmds d cmds, cmds.reverse ++ h, r⟩
      = ⟨d, h, cmds ++ r⟩
  | [], d, h, r, _ => by simp [undoIter, applyCmds]
  | cmd :: rest, d, h, r, hc => by
      have hc' := hc
      simp only [cleanRunB, Bool.and_eq_true, beq_iff_eq] at hc'
      have ih := undoIter_spec rest (applyEvent d cmd.deviceId cmd.fwdEvent)
        (cmd :: h) r hc'.2
      show undoLast (undoIter rest.length
        ⟨applyCmds d (cmd :: rest), (cmd :: rest).reverse ++ h, r⟩) = _
      have harr : (cmd :: rest).reverse ++ h = rest.reverse ++ (cmd :: h) := by
        simp [List.append_assoc]
      rw [harr]
      show undoLast (undoIter rest.length
        ⟨applyCmds (applyEvent d cmd.deviceId cmd.fwdEvent) rest,
          rest.reverse ++ (cmd :: h), r⟩) = _
      rw [ih]
      simp [undoLast, hc'.1]

/-- Redoing replays the forward events in original execution order,
rebuilding the executed configuration; no cleanness assumption is needed
since redo simply re-runs the forward events. -/
theorem redoIter_spec : ∀ (cmds : List Cmd)
    (d : List (String × DeviceStateType)) (h r : List Cmd),
    redoIter cmds.length ⟨d, h, cmds ++ r⟩
      = ⟨applyCmds d cmds, cmds.reverse ++ h, r⟩
  | [], d, h, r => by simp [redoIter, applyCmds]
  | cmd :: rest, d, h, r => by
      show redoIter rest.length (redoLast ⟨d, h, cmd :: (rest ++ r)⟩) = _
      show redoIter rest.length
        ⟨applyEvent d cmd.deviceId cmd.fwdEvent, cmd :: h, rest ++ r⟩ = _
      rw [redoIter_spec rest]
      simp [applyCmds, List.append_assoc]

/-- Claim C3 (amended): for a run of N device commands from an empty
history, executing leaves history size N and an empty redo stack, and —
provided the run is clean, i.e. each command's forward event is an accepted
transition whose fixed inverse event exactly restores the prior device map
(`cleanRunB`) — undoing N times restores the pre-command device states with
history 0 and the N commands on the redo stack, after which the k-th redo
reproduces the device states that held after the first k commands (the
original execution order), and N redos rebuild the fully executed
configuration (history N, redo stack 0).  Without the cleanness condition
the state-restoration part fails (see the counterexample). -/
theorem command_undo_redo (d : List (String × DeviceStateType))
    (cmds : List Cmd) (k : Nat) (hk : k ≤ cmds.length) :
    (execAll ⟨d, [], []⟩ cmds).history.length = cmds.length ∧
    (execAll ⟨d, [], []⟩ cmds).redoStack = [] ∧
    (cleanRunB d cmds = true →
      undoIter cmds.length (execAll ⟨d, [], []⟩ cmds) = ⟨d, [], cmds⟩ ∧
      (redoIter k ⟨d, [], cmds⟩).devices = applyCmds d (cmds.take k) ∧
      redoIter cmds.length ⟨d, [], cmds⟩ = execAll ⟨d, [], []⟩ cmds) := by
  have hexec := execAll_spec cmds d [] []
  have hredo0 : (if cmds.isEmpty then ([] : List Cmd) else []) = [] := by
    simp
  refine ⟨?_, ?_, fun hclean => ⟨?_, ?_, ?_⟩⟩
  · rw [hexec]; simp
  · rw [hexec]; simp
  · rw [hexec, hredo0]
    have h := undoIter_spec cmds d [] [] hclean
    simpa using h
  · have h := redoIter_spec (cmds.take k) d [] (cmds.drop k)
    rw [List.take_append_drop] at h
    have hlen : (cmds.take k).length = k := by
      simp [List.length_take, Nat.min_eq_left hk]
    rw [hlen] at h
    rw [h]
  · have h := redoIter_spec cmds d [] []
    rw [List.append_nil] at h
    rw [h, hexec, hredo0]

/-- Witness for C3 (amended): one clean command (activate the Idle device
"lamp", inverse deactivate): executing then undoing restores Idle with the
command on the redo stack, and redoing reproduces the Active post-state. -/
theorem command_undo_redo_witness :
    1 ≤ [Cmd.mk "lamp" "activate" "deactivate"].length ∧
    cleanRunB [("lamp", DeviceStateType.Idle)]
        [⟨"lamp", "activate", "deactivate"⟩] = true ∧
    ((execAll ⟨[("lamp", DeviceStateType.Idle)], [], []⟩
        [⟨"lamp", "activate", "deactivate"⟩]).history.length
      = [Cmd.mk "lamp" "activate" "deactivate"].length ∧
    (execAll ⟨[("lamp", DeviceStateType.Idle)], [], []⟩
        [⟨"lamp", "activate", "deactivate"⟩]).redoStack = [] ∧
    undoIter [Cmd.mk "lamp" "activate" "deactivate"].length
        (execAll ⟨[("lamp", DeviceStateType.Idle)], [], []⟩
          [⟨"lamp", "activate", "deactivate"⟩])
      = ⟨[("lamp", DeviceStateType.Idle)], [],
          [⟨"lamp", "activate", "deactivate"⟩]⟩ ∧
    (redoIter 1 ⟨[("lamp", DeviceStateType.Idle)], [],
        [⟨"lamp", "activate", "deactivate"⟩]⟩).devices
      = applyCmds [("lamp", DeviceStateType.Idle)]
          ([Cmd.mk "lamp" "activate" "deactivate"].take 1) ∧
    redoIter [Cmd.mk "lamp" "activate" "deactivate"].length
        ⟨[("lamp", DeviceStateType.Idle)], [],
          [⟨"lamp", "activate", "deactivate"⟩]⟩
      = execAll ⟨[("lamp", DeviceStateType.Idle)], [], []⟩
          [⟨"lamp", "activate", "deactivate"⟩]) :=
  ⟨by decide, by decide,
   (command_undo_redo [("lamp", DeviceStateType.Idle)]
      [⟨"lamp", "activate", "deactivate"⟩] 1 (by decide)).1,
   (command_undo_redo [("lamp", DeviceStateType.Idle)]
      [⟨"lamp", "activate", "deactivate"⟩] 1 (by decide)).2.1,
   ((command_undo_redo [("lamp", DeviceStateType.Idle)]
      [⟨"lamp", "activate", "deactivate"⟩] 1 (by decide)).2.2 (by decide)).1,
   ((command_undo_redo [("lamp", DeviceStateType.Idle)]
      [⟨"lamp", "activate", "deactivate"⟩] 1 (by decide)).2.2 (by decide)).2.1,
   ((command_undo_redo [("lamp", DeviceStateType.Idle)]
      [⟨"lamp", "activate", "deactivate"⟩] 1 (by decide)).2.2
     (by decide)).2.2⟩

/-- Counterexample to C3 as stated: the device "lamp" starts Idle;
executing `deactivateDevice` is an accepted call (the device exists) whose
forward event "deactivate" is ignored by the Idle state, but one undo
replays the fixed inverse event "activate", leaving the lamp Active — not
its pre-command state Idle.  So N commands followed by N undos do not, in
general, return the devices to their pre-command states. -/
theorem command_undo_redo_counterexample :
    (deactivateDevice ⟨[("lamp", DeviceStateType.Idle)], [], []⟩
        "lamp").toOption.map (fun c1 => (undoLast c1).devices)
      = some [("lamp", DeviceStateType.Active)] ∧
    [("lamp", DeviceStateType.Active)] ≠ [("lamp", DeviceStateType.Idle)] := by
  decide

/-- Claim C5 (amended): every device command operation that resolves its
device through `getContext` (activateDevice, deactivateDevice, triggerError,
resetDevice, startMaintenance, completeMaintenance, and `getContext` itself)
is a hard failure on an unregistered device id — it aborts and signals the
failure to the caller; but `getDeviceState` is the exception: on an
unregistered id it silently returns the default `DeviceStateType.Idle`
rather than failing. -/
theorem device_api_not_found (c : Controller) (did : String)
    (h : lookupDevice c.devices did = none) :
    getContext c did = .error ("Device not found: " ++ did) ∧
    activateDevice c did = .error ("Device not found: " ++ did) ∧
    deactivateDevice c did = .error ("Device not found: " ++ did) ∧
    triggerError c did = .error ("Device not found: " ++ did) ∧
    resetDevice c did = .error ("Device not found: " ++ did) ∧
    startMaintenance c did = .error ("Device not found: " ++ did) ∧
    completeMaintenance c did = .error ("Device not found: " ++ did) ∧
    getDeviceState c did = .Idle := by
  refine ⟨?_, ?_, ?_, ?_, ?_, ?_, ?_, ?_⟩ <;>
    simp [getContext, activateDevice, deactivateDevice, triggerError,
      resetDevice, startMaintenance, completeMaintenance, getDeviceState, h]

/-- Witness for C5 (amended): on a controller knowing only "lamp", every
getContext-based operation on the unknown id "fan" errors out, while
`getDeviceState` silently answers Idle. -/
theorem device_api_not_found_witness :
    lookupDevice [("lamp", DeviceStateType.Active)] "fan" = none ∧
    (getContext ⟨[("lamp", DeviceStateType.Active)], [], []⟩ "fan"
        = .error ("Device not found: " ++ "fan") ∧
     activateDevice ⟨[("lamp", DeviceStateType.Active)], [], []⟩ "fan"
        = .error ("Device not found: " ++ "fan") ∧
     deactivateDevice ⟨[("lamp", DeviceStateType.Active)], [], []⟩ "fan"
        = .error ("Device not found: " ++ "fan") ∧
     triggerError ⟨[("lamp", DeviceStateType.Active)], [], []⟩ "fan"
        = .error ("Device not found: " ++ "fan") ∧
     resetDevice ⟨[("lamp", DeviceStateType.Active)], [], []⟩ "fan"
        = .error ("Device not found: " ++ "fan") ∧
     startMaintenance ⟨[("lamp", DeviceStateType.Active)], [], []⟩ "fan"
        = .error ("Device not found: " ++ "fan") ∧
     completeMaintenance ⟨[("lamp", DeviceStateType.Active)], [], []⟩ "fan"
        = .error ("Device not found: " ++ "fan") ∧
     getDeviceState ⟨[("lamp", DeviceStateType.Active)], [], []⟩ "fan"
        = .Idle) :=
  ⟨by decide,
   device_api_not_found ⟨[("lamp", DeviceStateType.Active)], [], []⟩ "fan"
     (by decide)⟩

/-- Counterexample to C5 as stated: looking up the state of the
unregistered device id "fan" via `getDeviceState` is not a hard failure —
it silently returns the default Idle, indistinguishable from looking up a
genuinely registered Idle device. -/
theorem device_api_not_found_counterexample :
    getDeviceState ⟨[], [], []⟩ "fan" = DeviceStateType.Idle ∧
    getDeviceState ⟨[("fan", DeviceStateType.Idle)], [], []⟩ "fan"
      = DeviceStateType.Idle := by
  decide

/-- Claim C10: registering an already-registered device id is a
warning-logged no-op — the controller is unchanged, so the existing context
is kept and the device's current state is preserved (not reset to Idle). -/
theorem register_existing_device_noop (c : Controller) (did : String)
    (h : (lookupDevice c.devices did).isSome = true) :
    registerDevice c did = c ∧
    getDeviceState (registerDevice c did) did = getDeviceState c did := by
  have : registerDevice c did = c := by simp [registerDevice, h]
  exact ⟨this, by rw [this]⟩

/-- Witness for C10: re-registering the Active device "lamp" changes
nothing; in particular its state stays Active rather than resetting to
Idle. -/
theorem register_existing_device_noop_witness :
    (lookupDevice [("lamp", DeviceStateType.Active)] "lamp").isSome = true ∧
    (registerDevice ⟨[("lamp", DeviceStateType.Active)], [], []⟩ "lamp"
        = ⟨[("lamp", DeviceStateType.Active)], [], []⟩ ∧
     getDeviceState
        (registerDevice ⟨[("lamp", DeviceStateType.Active)], [], []⟩ "lamp")
        "lamp"
       = getDeviceState ⟨[("lamp", DeviceStateType.Active)], [], []⟩ "lamp") :=
  ⟨by decide,
   register_existing_device_noop ⟨[("lamp", DeviceStateType.Active)], [], []⟩
     "lamp" (by decide)⟩

/-- Claim C4: with the rule {Temperature, threshold 30, triggerAbove,
action "activate", target "fan", alertSeverity > 0} registered and the fan
Idle, the sensor event {Temperature, 31} activates the fan and publishes
exactly one AlertEvent; re-processing the identical event while the fan is
Active dispatches no further command and publishes no further alert — the
Idle guard suppresses re-triggering. -/
theorem automation_rule_guard (sev : Int) (msg : String) (hsev : 0 < sev) :
    evaluateRules ⟨[("fan", .Idle)], [], []⟩
        [⟨"HighTemp_ActivateFan", .Temperature, 30, true, "fan", "activate",
          sev, msg⟩]
        ⟨"temp_sensor", "Temperature", 31, 0⟩
      = .ok (⟨[("fan", .Active)], [⟨"fan", "activate", "deactivate"⟩], []⟩,
          [⟨"HighTemp_ActivateFan", msg ++ " (value triggered rule)", sev⟩]) ∧
    getDeviceState
        ⟨[("fan", .Active)], [⟨"fan", "activate", "deactivate"⟩], []⟩ "fan"
      = .Active ∧
    evaluateRules
        ⟨[("fan", .Active)], [⟨"fan", "activate", "deactivate"⟩], []⟩
        [⟨"HighTemp_ActivateFan", .Temperature, 30, true, "fan", "activate",
          sev, msg⟩]
        ⟨"temp_sensor", "Temperature", 31, 0⟩
      = .ok (⟨[("fan", .Active)], [⟨"fan", "activate", "deactivate"⟩], []⟩,
          []) := by
  have h31 : (31 : ℚ) > 30 := by norm_num
  refine ⟨?_, by decide, ?_⟩ <;>
  · simp [evaluateRules, parseSensorType, evalRulesList, applyRule,
      executeAction, activateDevice, deactivateDevice, getDeviceState,
      lookupDevice, executeCommand, applyEvent, handleEvent, h31, hsev,
      Except.map, Except.bind, pure, Except.pure]
    rfl

/-- Witness for C4: the scenario at alertSeverity 2, message "High
temperature detected". -/
theorem automation_rule_guard_witness :
    (0 : Int) < 2 ∧
    (evaluateRules ⟨[("fan", .Idle)], [], []⟩
        [⟨"HighTemp_ActivateFan", .Temperature, 30, true, "fan", "activate",
          2, "High temperature detected"⟩]
        ⟨"temp_sensor", "Temperature", 31, 0⟩
      = .ok (⟨[("fan", .Active)], [⟨"fan", "activate", "deactivate"⟩], []⟩,
          [⟨"HighTemp_ActivateFan",
            "High temperature detected" ++ " (value triggered rule)", 2⟩]) ∧
    getDeviceState
        ⟨[("fan", .Active)], [⟨"fan", "activate", "deactivate"⟩], []⟩ "fan"
      = .Active ∧
    evaluateRules
        ⟨[("fan", .Active)], [⟨"fan", "activate", "deactivate"⟩], []⟩
        [⟨"HighTemp_ActivateFan", .Temperature, 30, true, "fan", "activate",
          2, "High temperature detected"⟩]
        ⟨"temp_sensor", "Temperature", 31, 0⟩
      = .ok (⟨[("fan", .Active)], [⟨"fan", "activate", "deactivate"⟩], []⟩,
          [])) :=
  ⟨by decide,
   automation_rule_guard 2 "High temperature detected" (by decide)⟩

/-- Claim C9: a rule whose action is neither "activate" nor "deactivate"
(e.g. "reset") never dispatches to executeAction: the rule-loop body leaves
the controller untouched and publishes no alert for that rule, even when
the sensor type matches and the threshold condition triggers — only the
"activate" and "deactivate" guard branches ever dispatch. -/
theorem rule_action_never_dispatches (t : SensorType) (ev : SensorEvent)
    (acc : Controller × List AlertEvent) (rule : Rule)
    (h1 : rule.action ≠ "activate") (h2 : rule.action ≠ "deactivate") :
    applyRule t ev acc rule = .ok acc := by
  simp [applyRule, h1, h2]

/-- Witness for C9: a matching, triggering Temperature rule with action
"reset" and a positive alert severity leaves the controller and the alert
list untouched. -/
theorem rule_action_never_dispatches_witness :
    ("reset" : String) ≠ "activate" ∧ ("reset" : String) ≠ "deactivate" ∧
    applyRule .Temperature ⟨"temp_sensor", "Temperature", 31, 0⟩
        (⟨[("fan", DeviceStateType.Idle)], [], []⟩, [])
        ⟨"ResetRule", .Temperature, 30, true, "fan", "reset", 2, "msg"⟩
      = .ok (⟨[("fan", DeviceStateType.Idle)], [], []⟩, []) :=
  ⟨by decide, by decide,
   rule_action_never_dispatches .Temperature
     ⟨"temp_sensor", "Temperature", 31, 0⟩
     (⟨[("fan", DeviceStateType.Idle)], [], []⟩, [])
     ⟨"ResetRule", .Temperature, 30, true, "fan", "reset", 2, "msg"⟩
     (by decide) (by decide)⟩

/-- Removing an id that appears nowhere in the topic's subscriber list
leaves the registry unchanged. -/
theorem removeSub_of_not_mem : ∀ (subs : List (String × List Nat))
    (t : String) (i : Nat),
    i ∉ (findTopic subs t).getD [] → removeSub subs t i = subs
  | [], _, _, _ => rfl
  | (t', l) :: rest, t, i, h => by
      by_cases ht : t' = t
      · subst ht
        have hl : i ∉ l := by simpa [findTopic] using h
        simp only [removeSub, if_pos rfl]
        have hfil : l.filter (fun j => j ≠ i) = l := by
          refine List.filter_eq_self.mpr ?_
          intro a ha
          exact decide_eq_true (fun hai => hl (hai ▸ ha))
        rw [hfil]
        simp
      · have h' : i ∉ (findTopic rest t).getD [] := by
          simpa [findTopic, ht] using h
        simp [removeSub, ht, removeSub_of_not_mem rest t i h']

/-- From a fresh bus, n+1 subscriptions to one topic produce exactly the
ids 0, …, n for that topic, in subscription order. -/
theorem subscribeN_fresh (t : String) : ∀ n : Nat,
    subscribeN ⟨[], 0⟩ t (n + 1) = ⟨[(t, List.range (n + 1))], n + 1⟩
  | 0 => by simp [subscribeN, subscribe, addSub, List.range_succ]
  | n + 1 => by
      show (subscribe (subscribeN ⟨[], 0⟩ t (n + 1)) t).1 = _
      rw [subscribeN_fresh t n]
      simp [subscribe, addSub, List.range_succ]

/-- Claim C8: publishing to a topic with zero subscribers invokes no
handler; unsubscribing an id that matches no entry for the topic is a
no-op; and after N subscribes to a topic of a fresh bus followed by one
unsubscribe with one of the N handed-out ids, the topic's subscriberCount
is N − 1. -/
theorem event_bus_spec (b : EventBusModel) (t : String) (i N k : Nat) :
    (subscriberCount b t = 0 → publish b t = []) ∧
    (i ∉ (findTopic b.subscribers t).getD [] → unsubscribe b t i = b) ∧
    (k < N →
      subscriberCount (unsubscribe (subscribeN ⟨[], 0⟩ t N) t k) t = N - 1) := by
  refine ⟨fun h0 => ?_, fun hnm => ?_, fun hk => ?_⟩
  · unfold subscriberCount at h0
    unfold publish
    cases hft : findTopic b.subscribers t with
    | none => rfl
    | some l =>
        rw [hft] at h0
        simp [List.length_eq_zero.mp h0]
  · unfold unsubscribe
    cases hft : findTopic b.subscribers t with
    | none => rfl
    | some l => rw [removeSub_of_not_mem b.subscribers t i hnm]
  · obtain ⟨n, rfl⟩ : ∃ n, N = n + 1 :=
      ⟨N - 1, (Nat.succ_pred_eq_of_pos (Nat.pos_of_ne_zero (by omega))).symm⟩
    rw [subscribeN_fresh t n]
    have hmem : k ∈ List.range (n + 1) := List.mem_range.mpr hk
    have hcount :
        subscriberCount (unsubscribe ⟨[(t, List.range (n + 1))], n + 1⟩ t k) t
          = ((List.range (n + 1)).filter (fun j => j ≠ k)).length := by
      simp [unsubscribe, findTopic, removeSub, subscriberCount]
    have hfe : (List.range (n + 1)).filter (fun j => j ≠ k)
        = (List.range (n + 1)).filter (fun j => j != k) := by
      refine List.filter_congr ?_
      intro a _
      by_cases hj : a = k <;> simp [hj]
    have herase := List.Nodup.erase_eq_filter (List.nodup_range (n + 1)) k
    rw [hcount, hfe, ← herase, List.length_erase_of_mem hmem,
      List.length_range]

/-- Witness for C8: a topic entry with an empty subscriber vector publishes
to nobody; unsubscribing id 7 from a topic holding ids 3 and 5 changes
nothing; and 3 subscribes on a fresh bus followed by unsubscribing id 1
leave a count of 2. -/
theorem event_bus_spec_witness :
    (subscriberCount ⟨[("news", [])], 2⟩ "news" = 0 ∧
      publish ⟨[("news", [])], 2⟩ "news" = []) ∧
    ((7 : Nat) ∉ (findTopic [("news", [3, 5])] "news").getD [] ∧
      unsubscribe ⟨[("news", [3, 5])], 6⟩ "news" 7 = ⟨[("news", [3, 5])], 6⟩) ∧
    ((1 : Nat) < 3 ∧
      subscriberCount (unsubscribe (subscribeN ⟨[], 0⟩ "news" 3) "news" 1)
        "news" = 3 - 1) :=
  ⟨⟨by decide,
    (event_bus_spec ⟨[("news", [])], 2⟩ "news" 7 3 1).1 (by decide)⟩,
   ⟨by decide,
    (event_bus_spec ⟨[("news", [3, 5])], 6⟩ "news" 7 3 1).2.1 (by decide)⟩,
   ⟨by decide,
    (event_bus_spec ⟨[("news", [3, 5])], 6⟩ "news" 7 3 1).2.2 (by decide)⟩⟩

/-- Witness for C2: the unlisted event "frobnicate" leaves every state
unchanged. -/
theorem state_machine_transition_table_witness :
    handleEvent .Idle "frobnicate" = .Idle ∧
    handleEvent .Active "frobnicate" = .Active ∧
    handleEvent .Error "frobnicate" = .Error ∧
    handleEvent .Maintenance "frobnicate" = .Maintenance :=
  ⟨(state_machine_transition_table.2.1 "frobnicate").1 (by decide) (by decide),
   (state_machine_transition_table.2.1 "frobnicate").2.1 (by decide) (by decide)
     (by decide),
   (state_machine_transition_table.2.1 "frobnicate").2.2.1 (by decide)
     (by decide),
   (state_machine_transition_table.2.1 "frobnicate").2.2.2 (by decide)⟩

end SmartHome
